import Mathlib

/-!
Shallow embedding of `battery_report.py` (EV Battery Health Report Generator).

Modelling conventions:
  - Python numbers (ints and floats) are modelled as exact rationals `ℚ`;
    `round(x, n)` is modelled by `roundTo n`, Python's round-half-to-even.
  - The raw JSON log dict is modelled as `RawLog`, a structure of `Option`
    fields: `none` means the key is absent from the dict, `some v` that it is
    present with value `v`.  Truthiness of a list (`raw['cells']`) is emptiness.
  - Python exceptions raised by the core (`KeyError` on a missing key,
    `ZeroDivisionError`) are modelled with `Except PyError`.
  - `datetime.utcnow().isoformat()` is modelled as an explicit `now : String`
    argument to `generate_report`; the decimal rendering of numbers inside the
    explanation f-string is abstracted by `ToString ℚ`.
-/

/-- Python `round(x, ndigits=0)` restricted to rationals: round half to even. -/
def pyRound (x : ℚ) : ℤ :=
  let f := x.floor
  let r := x - f
  if r < 1/2 then f
  else if 1/2 < r then f + 1
  else if f % 2 = 0 then f else f + 1

/-- Python `round(x, n)` for `n` decimal digits. -/
def roundTo (n : ℕ) (x : ℚ) : ℚ :=
  (pyRound (x * 10 ^ n) : ℚ) / 10 ^ n

/-- One entry of the `cells` list: `{voltage, temp_c}` (the `id` key is never
read by the core). -/
structure CellReading where
  voltage : ℚ
  temp_c : ℚ
deriving DecidableEq

/-- One entry of `soc_timeseries`: only the `soc` key is read by the core. -/
structure SocSample where
  soc : ℚ
deriving DecidableEq

/-- One entry of `cycle_history`: only the `energy_kwh` key is read. -/
structure CycleEntry where
  energy_kwh : ℚ
deriving DecidableEq

/-- The raw JSON log dict.  `none` = key absent. -/
structure RawLog where
  vehicle_id : Option String
  nominal_capacity_kwh : Option ℚ
  measured_capacity_kwh : Option ℚ
  pack_voltage : Option ℚ
  cell_count : Option ℤ
  cells : Option (List CellReading)
  soc_timeseries : Option (List SocSample)
  cycle_history : Option (List CycleEntry)
deriving DecidableEq

/-- Exceptions the core can raise. -/
inductive PyError where
  | keyError : String → PyError
  | zeroDivisionError : PyError
deriving DecidableEq

/-- The SOH estimation methods (the `method` strings of `compute_soh`). -/
inductive SohMethod where
  | measured_capacity
  | cycle_history_estimate
  | voltage_heuristic
  | unknown
deriving DecidableEq

/-- The `confidence` strings of `compute_soh`. -/
inductive Confidence where
  | high
  | medium
  | low
  | none
deriving DecidableEq

/-- The dict `compute_soh` returns. -/
structure SohResult where
  soh_percent : ℚ
  method : SohMethod
  confidence : Confidence
deriving DecidableEq

/-- The dict `count_cycles_from_soc` returns. -/
structure CycleResult where
  equivalent_full_cycles : ℚ
  deep_cycles : ℕ
deriving DecidableEq

/-- The `type` strings of anomaly entries. -/
inductive AnomalyType where
  | voltage_imbalance
  | overheating
  | pack_voltage_mismatch
deriving DecidableEq

/-- The `severity` strings of anomaly entries. -/
inductive Severity where
  | major
  | minor
  | critical
  | warning
deriving DecidableEq

/-- One anomaly entry `{type, severity, value}`. -/
structure Anomaly where
  type : AnomalyType
  severity : Severity
  value : ℚ
deriving DecidableEq

/-- `compute_soh(raw)` from `battery_report.py` lines 24-50.  The first guard
needs both capacity keys; the cycle-history branch reads
`raw['nominal_capacity_kwh']` unconditionally (a `KeyError` if absent) and can
divide by zero, exactly as the Python line
`soh_percent = (avg_energy / raw['nominal_capacity_kwh']) * 100` can. -/
def compute_soh (raw : RawLog) : Except PyError SohResult :=
  match raw.measured_capacity_kwh, raw.nominal_capacity_kwh with
  | some measured, some nominal =>
      if nominal = 0 then .error .zeroDivisionError
      else .ok ⟨roundTo 2 (measured / nominal * 100), .measured_capacity, .high⟩
  | _, _ =>
    match raw.cycle_history with
    | some (c :: cs) =>
        let hist := c :: cs
        let total_energy := (hist.map (·.energy_kwh)).sum
        let avg_energy := total_energy / (hist.length : ℚ)
        match raw.nominal_capacity_kwh with
        | Option.none => .error (.keyError "nominal_capacity_kwh")
        | some nominal =>
            if nominal = 0 then .error .zeroDivisionError
            else .ok ⟨roundTo 2 (avg_energy / nominal * 100),
                      .cycle_history_estimate, .medium⟩
    | _ =>
      match raw.cells with
      | some (c :: cs) =>
          let cellsList := c :: cs
          let avg_voltage := (cellsList.map (·.voltage)).sum / (cellsList.length : ℚ)
          .ok ⟨roundTo 2 (30 + (avg_voltage - 3.2) / (4.2 - 3.2) * 70),
               .voltage_heuristic, .low⟩
      | _ => .ok ⟨0, .unknown, .none⟩

/-- `count_cycles_from_soc(soc_series)` from `battery_report.py` lines 53-74.
Consecutive pairs `(soc_series[i-1], soc_series[i])` are obtained by zipping
the list with its tail. -/
def count_cycles_from_soc (soc_series : List SocSample) : CycleResult :=
  if soc_series.length < 2 then ⟨0, 0⟩
  else
    let pairs := soc_series.zip soc_series.tail
    let total_delta_soc := (pairs.map (fun p => |p.2.soc - p.1.soc|)).sum
    let equivalent_full_cycles := total_delta_soc / 100
    let deep_cycles := pairs.countP (fun p => decide (p.1.soc ≥ 90 ∧ p.2.soc ≤ 20))
    ⟨roundTo 2 equivalent_full_cycles, deep_cycles⟩

/-- Python `max` over a list, defined on a head/tail split (only ever applied
to non-empty lists, as in the source where it sits under `if raw['cells']`). -/
def listMax : List ℚ → ℚ
  | [] => 0
  | x :: xs => xs.foldl max x

/-- Python `min` over a list (same guard as `listMax`). -/
def listMin : List ℚ → ℚ
  | [] => 0
  | x :: xs => xs.foldl min x

/-- `detect_anomalies(raw)` from `battery_report.py` lines 77-108: the cell
block (voltage imbalance, then overheating) followed by the pack block. -/
def detect_anomalies (raw : RawLog) : List Anomaly :=
  let anomalies : List Anomaly := []
  let anomalies :=
    match raw.cells with
    | some (c :: cs) =>
        let cellsList := c :: cs
        let voltages := cellsList.map (·.voltage)
        let temps := cellsList.map (·.temp_c)
        let voltage_spread := listMax voltages - listMin voltages
        let anomalies :=
          if voltage_spread ≥ 0.10 then
            anomalies ++ [⟨.voltage_imbalance, .major, roundTo 3 voltage_spread⟩]
          else if voltage_spread ≥ 0.05 then
            anomalies ++ [⟨.voltage_imbalance, .minor, roundTo 3 voltage_spread⟩]
          else anomalies
        if listMax temps ≥ 60 then
          anomalies ++ [⟨.overheating, .critical, listMax temps⟩]
        else if listMax temps ≥ 45 then
          anomalies ++ [⟨.overheating, .warning, listMax temps⟩]
        else anomalies
    | _ => anomalies
  match raw.pack_voltage, raw.cell_count with
  | some pack_voltage, some cell_count =>
      if cell_count > 0 then
        let implied_cell_v := pack_voltage / (cell_count : ℚ)
        if ¬ (2.5 ≤ implied_cell_v ∧ implied_cell_v ≤ 4.5) then
          anomalies ++ [⟨.pack_voltage_mismatch, .warning, roundTo 2 implied_cell_v⟩]
        else anomalies
      else anomalies
  | _, _ => anomalies

/-- The report dict returned by `generate_report`. -/
structure HealthReport where
  vehicle_id : String
  generated_at : String
  soh : SohResult
  cycles : CycleResult
  anomalies : List Anomaly
  explanation : String
deriving DecidableEq

/-- The `method` string used inside the explanation f-string. -/
def SohMethod.str : SohMethod → String
  | .measured_capacity => "measured_capacity"
  | .cycle_history_estimate => "cycle_history_estimate"
  | .voltage_heuristic => "voltage_heuristic"
  | .unknown => "unknown"

/-- The explanation string of `generate_report` (lines 125-127); numeric
rendering is abstracted by `ToString ℚ`. -/
def mkExplanation (soh : SohResult) (cycles : CycleResult)
    (anomalies : List Anomaly) : String :=
  "Battery SOH is " ++ toString soh.soh_percent ++ "% (calculated via " ++
    soh.method.str ++ "). " ++
  "Total equivalent cycles: " ++ toString cycles.equivalent_full_cycles ++ ". " ++
  "Detected " ++ toString anomalies.length ++ " anomalies."

/-- `generate_report(raw)` from `battery_report.py` lines 111-136.  `now` is
the value of `datetime.utcnow().isoformat()` at the call.  An exception
raised by `compute_soh` propagates out of `generate_report`. -/
def generate_report (raw : RawLog) (now : String) : Except PyError HealthReport :=
  match compute_soh raw with
  | .error e => .error e
  | .ok soh =>
      let cycles := count_cycles_from_soc (raw.soc_timeseries.getD [])
      let anomalies := detect_anomalies raw
      .ok ⟨raw.vehicle_id.getD "Unknown", now, soh, cycles, anomalies,
           mkExplanation soh cycles anomalies⟩

/-! ## Concrete input records used by witnesses and counterexamples -/

/-- The measured-capacity fixture of the repository's test-suite
(`sample_log_measured`): both capacity keys present, cells and a soc series
populated. -/
def wlogMeasured : RawLog :=
  ⟨some "VIN-TEST-001", some 75, some 53.25, some 350.5, some 96,
   some [⟨3.65, 28⟩, ⟨3.75, 61⟩], some [⟨95⟩, ⟨18⟩], Option.none⟩

/-- A log whose only populated source of SOH information is a single cell
with a mean voltage of 5.2 V (outside the [3.2, 4.2] heuristic range). -/
def wlogVoltage52 : RawLog :=
  ⟨Option.none, some 60, Option.none, Option.none, Option.none,
   some [⟨5.2, 25⟩], Option.none, Option.none⟩

/-- A log with only `cells` populated, mean cell voltage 3.7 V
(the `sample_log_voltage` fixture of the test-suite). -/
def wlogVoltage37 : RawLog :=
  ⟨some "VIN-TEST-003", some 60, Option.none, some 340, some 96,
   some [⟨3.7, 25⟩, ⟨3.7, 25⟩], Option.none, Option.none⟩

/-- A log with every optional SOH source absent or empty, and
`nominal_capacity_kwh` itself absent. -/
def wlogEmpty : RawLog :=
  ⟨Option.none, Option.none, Option.none, Option.none, Option.none,
   some [], Option.none, some []⟩

/-- The soc values `[95, 18, 88, 25]` of concrete scenario 4. -/
def socScenario4 : List SocSample := [⟨95⟩, ⟨18⟩, ⟨88⟩, ⟨25⟩]

/-- The anomaly-detection fixture of the test-suite: voltage spread 0.11,
max temperature 62, implied cell voltage 200 / 96 ≈ 2.08. -/
def wlogAnomalies : RawLog :=
  ⟨Option.none, Option.none, Option.none, some 200, some 96,
   some [⟨3.6, 30⟩, ⟨3.71, 46⟩, ⟨3.65, 62⟩], Option.none, Option.none⟩

/-! ## State-threaded rendering of the pipeline

For the frame property the record is threaded explicitly: every helper is
handed the caller's record and returns the record state it leaves behind.
The Python source performs no write to `raw` anywhere — only `in` tests,
subscript reads and `.get` — so each helper hands its input record back. -/

/-- `compute_soh`, threading the record state. -/
def compute_soh_st (raw : RawLog) : Except PyError SohResult × RawLog :=
  (compute_soh raw, raw)

/-- `count_cycles_from_soc(raw.get('soc_timeseries', []))`, threading the
record state. -/
def count_cycles_st (raw : RawLog) : CycleResult × RawLog :=
  (count_cycles_from_soc (raw.soc_timeseries.getD []), raw)

/-- `detect_anomalies`, threading the record state. -/
def detect_anomalies_st (raw : RawLog) : List Anomaly × RawLog :=
  (detect_anomalies raw, raw)

/-- `generate_report`, threading the record state through its three callees
and its own field reads; the second component is the state of the caller's
record after the call. -/
def generate_report_run (raw : RawLog) (now : String) :
    Except PyError HealthReport × RawLog :=
  let s := compute_soh_st raw
  match s.1 with
  | .error e => (.error e, s.2)
  | .ok soh =>
      let c := count_cycles_st s.2
      let a := detect_anomalies_st c.2
      (.ok ⟨a.2.vehicle_id.getD "Unknown", now, soh, c.1, a.1,
            mkExplanation soh c.1 a.1⟩, a.2)

/-! ## SOH estimator theorems -/

/-- C1: whenever both `measured_capacity_kwh` and `nominal_capacity_kwh` are
present (nominal positive, as the data model requires), `compute_soh` takes
the measured-capacity branch — method `measured_capacity`, confidence `high`,
`soh_percent = round(measured / nominal * 100, 2)` — regardless of the
content of `cells` and `cycle_history`. -/
theorem compute_soh_measured_capacity_priority (raw : RawLog)
    (measured nominal : ℚ)
    (hm : raw.measured_capacity_kwh = some measured)
    (hn : raw.nominal_capacity_kwh = some nominal)
    (hpos : 0 < nominal) :
    compute_soh raw =
      .ok ⟨roundTo 2 (measured / nominal * 100), .measured_capacity, .high⟩ := by
  unfold compute_soh
  rw [hm, hn]
  simp [hpos.ne']

/-- Witness for C1 at the test-suite's measured-capacity fixture:
53.25 / 75 * 100 rounds to 71. -/
theorem compute_soh_measured_capacity_priority_witness :
    (0:ℚ) < 75 ∧
      compute_soh wlogMeasured = .ok ⟨71, .measured_capacity, .high⟩ := by
  refine ⟨by norm_num, ?_⟩
  rw [compute_soh_measured_capacity_priority wlogMeasured 53.25 75 rfl rfl
    (by norm_num)]
  norm_num [roundTo, pyRound, Rat.floor]

/-- C10: with `measured_capacity_kwh` absent, `cycle_history` absent or
empty, and `cells` absent or empty, `compute_soh` reaches the final branch
and returns `{soh_percent: 0, method: "unknown", confidence: "none"}` without
reading `nominal_capacity_kwh` at all: the record's (possibly absent)
`nominal_capacity_kwh` is universally quantified here, so no error arises
even when it is missing. -/
theorem compute_soh_unknown_branch (raw : RawLog)
    (hm : raw.measured_capacity_kwh = Option.none)
    (hch : raw.cycle_history = Option.none ∨ raw.cycle_history = some [])
    (hc : raw.cells = Option.none ∨ raw.cells = some []) :
    compute_soh raw = .ok ⟨0, .unknown, .none⟩ := by
  unfold compute_soh
  rw [hm]
  rcases hch with h | h <;> rcases hc with h2 | h2 <;> rw [h, h2]

/-- Witness for C10: the all-empty log, whose `nominal_capacity_kwh` is
absent, still yields the unknown result. -/
theorem compute_soh_unknown_branch_witness :
    wlogEmpty.nominal_capacity_kwh = Option.none ∧
      compute_soh wlogEmpty = .ok ⟨0, .unknown, .none⟩ :=
  ⟨rfl, compute_soh_unknown_branch wlogEmpty rfl (Or.inr rfl) (Or.inr rfl)⟩

/-- C7: for a well-formed record — `nominal_capacity_kwh` present and
positive (the data model's requirement; the structure's types already force
every numeric field numeric and every `cycle_history` entry to carry
`energy_kwh`) — `compute_soh` never raises: every error branch is
unreachable and some result is returned. -/
theorem compute_soh_never_raises (raw : RawLog) (nominal : ℚ)
    (hn : raw.nominal_capacity_kwh = some nominal) (hpos : 0 < nominal) :
    ∃ r, compute_soh raw = .ok r := by
  unfold compute_soh
  rw [hn]
  rcases hm : raw.measured_capacity_kwh with _ | measured
  · rcases hch : raw.cycle_history with _ | ⟨_ | ⟨c, cs⟩⟩
    · rcases hc : raw.cells with _ | ⟨_ | ⟨cell, cells⟩⟩ <;> exact ⟨_, rfl⟩
    · rcases hc : raw.cells with _ | ⟨_ | ⟨cell, cells⟩⟩ <;> exact ⟨_, rfl⟩
    · exact ⟨_, by dsimp only; rw [if_neg hpos.ne']⟩
  · exact ⟨_, by dsimp only; rw [if_neg hpos.ne']⟩

/-- Witness for C7 at the measured-capacity fixture (nominal 75 > 0). -/
theorem compute_soh_never_raises_witness :
    (0:ℚ) < 75 ∧ ∃ r, compute_soh wlogMeasured = .ok r :=
  ⟨by norm_num, compute_soh_never_raises wlogMeasured 75 rfl (by norm_num)⟩

/-- Counterexample for C3 as stated: at the concrete log whose single cell
reads 5.2 V, `compute_soh` returns `soh_percent = 170.0`
(`30 + (5.2 - 3.2) / 1.0 * 70`), not `230.0` as the claim asserts. -/
theorem compute_soh_voltage_52_cex :
    compute_soh wlogVoltage52 = .ok ⟨170, .voltage_heuristic, .low⟩ ∧
      (170:ℚ) ≠ 230 := by
  refine ⟨?_, by norm_num⟩
  norm_num [compute_soh, wlogVoltage52, roundTo, pyRound, Rat.floor]

/-- C3 amended: with `measured_capacity_kwh` absent, `cycle_history` absent
or empty, and `cells` non-empty, `compute_soh` uses the voltage heuristic:
a linear, unclamped map of the mean cell voltage (no branch ever clamps, so
a mean of 5.2 V extrapolates to 170.0, not 230.0). -/
theorem compute_soh_voltage_heuristic_unclamped (raw : RawLog)
    (cellsList : List CellReading)
    (hm : raw.measured_capacity_kwh = Option.none)
    (hch : raw.cycle_history = Option.none ∨ raw.cycle_history = some [])
    (hc : raw.cells = some cellsList) (hne : cellsList ≠ []) :
    compute_soh raw =
      .ok ⟨roundTo 2 (30 +
              ((cellsList.map (·.voltage)).sum / (cellsList.length : ℚ) - 3.2) /
                (4.2 - 3.2) * 70),
           .voltage_heuristic, .low⟩ := by
  unfold compute_soh
  rw [hm]
  rcases hch with h | h <;> rw [h] <;>
  · cases cellsList with
    | nil => exact absurd rfl hne
    | cons c cs => rw [hc]

/-- Witness for C3 (amended) at the 5.2 V log: the heuristic extrapolates to
170.0. -/
theorem compute_soh_voltage_heuristic_unclamped_witness :
    compute_soh wlogVoltage52 = .ok ⟨170, .voltage_heuristic, .low⟩ := by
  rw [compute_soh_voltage_heuristic_unclamped wlogVoltage52 [⟨5.2, 25⟩] rfl
    (Or.inl rfl) rfl (by simp)]
  norm_num [roundTo, pyRound, Rat.floor]

/-- C6: on the same voltage-heuristic branch the result is
`round(30 + (mean_voltage - 3.2) / 1.0 * 70, 2)` with confidence `low`
(the source's divisor `4.2 - 3.2` equals `1.0` exactly over `ℚ`). -/
theorem compute_soh_voltage_linear_map (raw : RawLog)
    (cellsList : List CellReading)
    (hm : raw.measured_capacity_kwh = Option.none)
    (hch : raw.cycle_history = Option.none ∨ raw.cycle_history = some [])
    (hc : raw.cells = some cellsList) (hne : cellsList ≠ []) :
    compute_soh raw =
      .ok ⟨roundTo 2 (30 +
              ((cellsList.map (·.voltage)).sum / (cellsList.length : ℚ) - 3.2) /
                1 * 70),
           .voltage_heuristic, .low⟩ := by
  unfold compute_soh
  rw [hm]
  rcases hch with h | h <;> rw [h] <;>
  · cases cellsList with
    | nil => exact absurd rfl hne
    | cons c cs =>
        rw [hc]
        norm_num

/-- Witness for C6 at the test-suite's voltage fixture: mean cell voltage
3.7 V yields 65.0. -/
theorem compute_soh_voltage_linear_map_witness :
    compute_soh wlogVoltage37 = .ok ⟨65, .voltage_heuristic, .low⟩ := by
  rw [compute_soh_voltage_linear_map wlogVoltage37 [⟨3.7, 25⟩, ⟨3.7, 25⟩] rfl
    (Or.inl rfl) rfl (by simp)]
  norm_num [roundTo, pyRound, Rat.floor]

/-! ## Cycle counter theorems -/

/-- The zip of a list with its tail, written by index: entry `i` is the
consecutive pair `(s[i], s[i+1])`. -/
theorem zip_tail_eq_range_map (s : List SocSample) (d : SocSample) :
    s.zip s.tail =
      (List.range (s.length - 1)).map (fun i => (s.getD i d, s.getD (i+1) d)) := by
  induction s with
  | nil => simp
  | cons a t ih =>
    cases t with
    | nil => simp
    | cons b u =>
      simp only [List.tail_cons] at ih ⊢
      rw [List.zip_cons_cons, ih]
      rw [show (a :: b :: u).length - 1 = u.length + 1 from rfl,
        List.range_succ_eq_map, List.map_cons, List.map_map]
      rfl

/-- C4: `count_cycles_from_soc` returns zeros for fewer than two samples;
otherwise `equivalent_full_cycles` is the rounded sum over consecutive index
pairs of `|soc[i+1] - soc[i]| / 100`, and `deep_cycles` counts the index
pairs with `soc[i] ≥ 90` and `soc[i+1] ≤ 20`. -/
theorem count_cycles_from_soc_spec (s : List SocSample) :
    (s.length < 2 → count_cycles_from_soc s = ⟨0, 0⟩) ∧
    (2 ≤ s.length →
      count_cycles_from_soc s =
        ⟨roundTo 2
            (((List.range (s.length - 1)).map
               (fun i => |(s.getD (i+1) ⟨0⟩).soc - (s.getD i ⟨0⟩).soc|)).sum / 100),
         (List.range (s.length - 1)).countP
            (fun i => decide ((s.getD i ⟨0⟩).soc ≥ 90 ∧ (s.getD (i+1) ⟨0⟩).soc ≤ 20))⟩) := by
  constructor
  · intro h
    unfold count_cycles_from_soc
    rw [if_pos h]
  · intro h
    unfold count_cycles_from_soc
    rw [if_neg (by omega)]
    dsimp only
    rw [zip_tail_eq_range_map s ⟨0⟩, List.map_map, List.countP_map]
    rfl

/-- Witness for C4: the short-series branch at a one-sample series, and the
general formula at scenario 4's values, which evaluate to 2.1 equivalent
full cycles and one deep cycle. -/
theorem count_cycles_from_soc_spec_witness :
    count_cycles_from_soc [⟨95⟩] = ⟨0, 0⟩ ∧
      count_cycles_from_soc socScenario4 = ⟨2.1, 1⟩ := by
  constructor
  · exact (count_cycles_from_soc_spec [⟨95⟩]).1 (by decide)
  · rw [(count_cycles_from_soc_spec socScenario4).2 (by decide)]
    norm_num [socScenario4, roundTo, pyRound, Rat.floor, List.range_succ,
      List.countP_cons, List.countP_nil]

/-- Counterexample for C2 as stated: on soc values `[95, 18, 88, 25]` the
cumulative SoC movement is `77 + 70 + 63 = 210` points, so
`equivalent_full_cycles` is 2.1, not 1.4 (the repository's own test asserts
1.4 and fails against the code). -/
theorem count_cycles_scenario4_cex :
    ¬ ((count_cycles_from_soc socScenario4).equivalent_full_cycles = 1.4 ∧
       (count_cycles_from_soc socScenario4).deep_cycles = 1) := by
  intro h
  have h14 : (count_cycles_from_soc socScenario4).equivalent_full_cycles = 1.4 := h.1
  rw [show count_cycles_from_soc socScenario4 = ⟨2.1, 1⟩ from by
    norm_num [count_cycles_from_soc, socScenario4, roundTo, pyRound, Rat.floor,
      List.countP_cons, List.countP_nil]] at h14
  norm_num at h14

/-- C2 amended: for the SoC series `[95, 18, 88, 25]`,
`count_cycles_from_soc` returns `equivalent_full_cycles = 2.1` and
`deep_cycles = 1` (only the 95 → 18 pair is a ≥90 → ≤20 transition). -/
theorem count_cycles_scenario4_amended :
    count_cycles_from_soc socScenario4 = ⟨2.1, 1⟩ := by
  norm_num [count_cycles_from_soc, socScenario4, roundTo, pyRound, Rat.floor,
    List.countP_cons, List.countP_nil]

/-! ## Anomaly detector theorems -/

/-- C5: the three anomaly checks are independent and all evaluated.  Any
record that triggers the voltage-imbalance condition (spread ≥ 0.05), the
overheating condition (max temperature ≥ 45) and the pack-voltage-mismatch
condition (implied cell voltage outside [2.5, 4.5] with positive cell count)
produces exactly three entries, in the fixed order voltage_imbalance,
overheating, pack_voltage_mismatch. -/
theorem detect_anomalies_all_three (raw : RawLog)
    (cellsList : List CellReading) (pv : ℚ) (cc : ℤ)
    (hc : raw.cells = some cellsList) (hne : cellsList ≠ [])
    (hpv : raw.pack_voltage = some pv) (hcc : raw.cell_count = some cc)
    (hccpos : 0 < cc)
    (hspread : listMax (cellsList.map (·.voltage)) -
        listMin (cellsList.map (·.voltage)) ≥ 0.05)
    (htemp : listMax (cellsList.map (·.temp_c)) ≥ 45)
    (hmm : ¬ (2.5 ≤ pv / (cc : ℚ) ∧ pv / (cc : ℚ) ≤ 4.5)) :
    (detect_anomalies raw).map Anomaly.type =
      [.voltage_imbalance, .overheating, .pack_voltage_mismatch] := by
  unfold detect_anomalies
  rcases cellsList with _ | ⟨c, cs⟩
  · exact absurd rfl hne
  · rw [hc, hpv, hcc]
    dsimp only
    split_ifs with h1 h2 h3 h4 h5 h6 h7 <;>
      simp_all [hccpos, hmm]

/-- Witness for C5 at the test-suite's anomaly fixture (spread 0.11,
max temperature 62, implied cell voltage 200/96). -/
theorem detect_anomalies_all_three_witness :
    (detect_anomalies wlogAnomalies).map Anomaly.type =
      [.voltage_imbalance, .overheating, .pack_voltage_mismatch] := by
  apply detect_anomalies_all_three wlogAnomalies
    [⟨3.6, 30⟩, ⟨3.71, 46⟩, ⟨3.65, 62⟩] 200 96 rfl (by simp) rfl rfl
    (by norm_num)
  · norm_num [listMax, listMin, max_def, min_def]
  · norm_num [listMax, max_def]
  · norm_num

/-! ## Report composer theorems -/

/-- C8: `generate_report` is deterministic modulo the timestamp — two calls
on equal input records agree on every output field except `generated_at`
(which carries the wall-clock argument); no hidden mutable state exists in
the embedding. -/
theorem generate_report_deterministic (raw : RawLog) (t1 t2 : String)
    (r1 r2 : HealthReport)
    (h1 : generate_report raw t1 = .ok r1)
    (h2 : generate_report raw t2 = .ok r2) :
    r1.vehicle_id = r2.vehicle_id ∧ r1.soh = r2.soh ∧ r1.cycles = r2.cycles ∧
      r1.anomalies = r2.anomalies ∧ r1.explanation = r2.explanation := by
  unfold generate_report at h1 h2
  cases hs : compute_soh raw with
  | error e => rw [hs] at h1; exact absurd h1 (by simp)
  | ok soh =>
      rw [hs] at h1 h2
      dsimp only at h1 h2
      simp only [Except.ok.injEq] at h1 h2
      subst h1
      subst h2
      exact ⟨rfl, rfl, rfl, rfl, rfl⟩

/-- Witness for C8: two invocations on the measured-capacity fixture with
different timestamps agree on everything but `generated_at`. -/
theorem generate_report_deterministic_witness :
    ∃ r1 r2,
      generate_report wlogMeasured "2025-09-16T12:00:00" = .ok r1 ∧
      generate_report wlogMeasured "2025-09-17T09:30:00" = .ok r2 ∧
      r1.vehicle_id = r2.vehicle_id ∧ r1.soh = r2.soh ∧ r1.cycles = r2.cycles ∧
      r1.anomalies = r2.anomalies ∧ r1.explanation = r2.explanation := by
  have hs : compute_soh wlogMeasured =
      .ok ⟨roundTo 2 (53.25 / 75 * 100), .measured_capacity, .high⟩ := by
    norm_num [compute_soh, wlogMeasured]
  obtain ⟨r1p, h1⟩ : ∃ r, generate_report wlogMeasured "2025-09-16T12:00:00" = .ok r :=
    ⟨_, by unfold generate_report; rw [hs]⟩
  obtain ⟨r2p, h2⟩ : ∃ r, generate_report wlogMeasured "2025-09-17T09:30:00" = .ok r :=
    ⟨_, by unfold generate_report; rw [hs]⟩
  exact ⟨r1p, r2p, h1, h2,
    generate_report_deterministic wlogMeasured "2025-09-16T12:00:00"
      "2025-09-17T09:30:00" r1p r2p h1 h2⟩

/-- C9: `generate_report` does not mutate the input record: in the
state-threaded rendering the record that comes back out of the call is the
record that went in (and the result is the same report `generate_report`
produces). -/
theorem generate_report_no_mutation (raw : RawLog) (now : String) :
    (generate_report_run raw now).2 = raw ∧
      (generate_report_run raw now).1 = generate_report raw now := by
  unfold generate_report_run compute_soh_st count_cycles_st
    detect_anomalies_st generate_report
  cases compute_soh raw <;> exact ⟨rfl, rfl⟩
